import Mathlib

/-!
Shallow embedding of the scientific-results cross-architecture validation
engine (`validate-scientific-results.py`) of the aws-geos-chem repository,
together with theorems settling the frozen claims about it.

Modelling conventions:
* Floating-point numbers are modelled by exact rationals `ℚ`.
* A flattened array cell is `Option ℚ`; `none` models a NaN value.
* `rmse = sqrt(mean(abs_diff²))` is represented by the exact rational
  `rmseSq = mean(abs_diff²)`; since every quantity involved is nonnegative,
  the source's comparison `rmse / |mean_ref| < t` is equivalent to
  `0 < t * |mean_ref| ∧ rmseSq < (t * |mean_ref|)²`, which is the form used
  in the executable verdict.  A bridge lemma (`sqrtQLt_iff_real_sqrt`)
  proves the equivalence with the `Real.sqrt` formulation.
* Pearson's `corr_coef = cov / sqrt(varRef · varTest)` is represented by its
  exact rational ingredients `cov`, `varRef`, `varTest` (all computed over
  the valid subset, exactly as the source computes `np.corrcoef` over
  `ref_valid`/`test_valid`).
* A Python exception is modelled by `Except.error ()` (or `none` for a
  single partial operation); "skip with a warning" is a normal value that
  simply produces no record.
-/

namespace GeosChemValidate

/-- The validation threshold triple, mirroring the Python dict
`VALIDATION_THRESHOLDS = {'mean': …, 'rmse': …, 'max_abs_diff': …}`. -/
structure Thresholds where
  mean : ℚ
  rmse : ℚ
  max_abs_diff : ℚ
deriving DecidableEq

/-- `VALIDATION_THRESHOLDS`: the default thresholds
`{'mean': 1e-5, 'rmse': 1e-4, 'max_abs_diff': 1e-3}`. -/
def VALIDATION_THRESHOLDS : Thresholds :=
  { mean := 1 / 10 ^ 5, rmse := 1 / 10 ^ 4, max_abs_diff := 1 / 10 ^ 3 }

/-- A numpy array as the comparator sees it: its shape tuple and its
flattened cells; `none` models a NaN cell. -/
structure NCArray where
  shape : List Nat
  flat : List (Option ℚ)
deriving DecidableEq

/-- `valid_idx = ~np.isnan(ref_flat) & ~np.isnan(test_flat)` followed by
`ref_flat[valid_idx]`, `test_flat[valid_idx]`: the list of (ref, test)
pairs at positions where neither side is NaN. -/
def validPairs (ref test : List (Option ℚ)) : List (ℚ × ℚ) :=
  (ref.zip test).filterMap fun p =>
    match p with
    | (some a, some b) => some (a, b)
    | _ => none

/-- `np.mean` of a (nonempty) list of rationals. -/
def qmean (l : List ℚ) : ℚ := l.sum / l.length

/-- `np.max` of a nonempty list of rationals (returns 0 on `[]`, a case the
comparator never reaches because of the empty-valid-set guard). -/
def listMax : List ℚ → ℚ
  | [] => 0
  | x :: xs => xs.foldl max x

/-- One element of `rel_diff`: the source sets
`rel_diff = np.zeros_like(ref_valid)` and then
`rel_diff[safe_idx] = abs_diff[safe_idx] / np.abs(ref_valid[safe_idx])`
where `safe_idx = np.abs(ref_valid) > 1e-10`. -/
def relDiffElem (r t : ℚ) : ℚ :=
  if |r| > 1 / 10 ^ 10 then |t - r| / |r| else 0

/-- `Real.sqrt x < c`, stated as a decidable predicate on rationals
(for `0 ≤ x`): `sqrtQLt x c ↔ Real.sqrt ↑x < ↑c`. -/
abbrev sqrtQLt (x c : ℚ) : Prop := 0 < c ∧ x < c ^ 2

/-- The `passes_validation` computation of `compare_species` (lines
213–229): when `mean_ref ≠ 0` the conjunction of the three normalized
comparisons, where the rmse comparison `rmse / |mean_ref| < th.rmse`
appears in its squared form `sqrtQLt rmseSq (th.rmse * |mean_ref|)`;
when `mean_ref = 0` the absolute check `|mean_test| < 1e-10`. -/
def passesValidation (th : Thresholds) (mean_ref mean_test rmseSq max_abs_diff : ℚ) : Bool :=
  if mean_ref ≠ 0 then
    decide (|mean_ref - mean_test| / |mean_ref| < th.mean) &&
    decide (sqrtQLt rmseSq (th.rmse * |mean_ref|)) &&
    decide (max_abs_diff / |mean_ref| < th.max_abs_diff)
  else
    decide (|mean_test| < 1 / 10 ^ 10)

/-- The statistics dict built by `compare_species` for one
(species, dataset) pair, together with the verdict.  `rmseSq` is the
square of the source's `rmse`; `cov`, `varRef`, `varTest` are the
ingredients of the source's `corr_coef` (see the module docstring). -/
structure Stats where
  mean_ref : ℚ
  mean_test : ℚ
  mean_abs_diff : ℚ
  max_abs_diff : ℚ
  rmseSq : ℚ
  mean_rel_diff : ℚ
  max_rel_diff : ℚ
  cov : ℚ
  varRef : ℚ
  varTest : ℚ
  passes_validation : Bool
deriving DecidableEq

/-- Lines 192–229 of `compare_species`: the statistics over the valid
(ref, test) pairs and the pass/fail verdict. -/
def computeStats (th : Thresholds) (pairs : List (ℚ × ℚ)) : Stats :=
  let refValid := pairs.map Prod.fst
  let testValid := pairs.map Prod.snd
  let absDiff := pairs.map fun p => |p.2 - p.1|
  let relDiff := pairs.map fun p => relDiffElem p.1 p.2
  let mean_ref := qmean refValid
  let mean_test := qmean testValid
  let rmseSq := qmean (absDiff.map fun d => d ^ 2)
  let max_abs_diff := listMax absDiff
  { mean_ref := mean_ref
    mean_test := mean_test
    mean_abs_diff := qmean absDiff
    max_abs_diff := max_abs_diff
    rmseSq := rmseSq
    mean_rel_diff := qmean relDiff
    max_rel_diff := listMax relDiff
    cov := qmean (pairs.map fun p => (p.1 - mean_ref) * (p.2 - mean_test))
    varRef := qmean (refValid.map fun a => (a - mean_ref) ^ 2)
    varTest := qmean (testValid.map fun a => (a - mean_test) ^ 2)
    passes_validation := passesValidation th mean_ref mean_test rmseSq max_abs_diff }

/-- Lines 169–232 of `compare_species`, for one (species, dataset) pair:
skip (`none`) on a shape mismatch or when no valid (non-NaN) positions
remain; otherwise produce the statistics record. -/
def compareOne (th : Thresholds) (ref test : NCArray) : Option Stats :=
  if ref.shape ≠ test.shape then none
  else
    let pairs := validPairs ref.flat test.flat
    if pairs = [] then none
    else some (computeStats th pairs)

/-- A dataset variable: either it has no `time` dimension (`timeless`) or it
is a time series, one array per time step (`timed`). -/
inductive Variable where
  | timeless (a : NCArray)
  | timed (frames : List NCArray)
deriving DecidableEq

/-- `data.isel(time=t)` with xarray/numpy integer-index semantics: a
negative index counts from the end (`len + t`); an index that is still out
of range raises (modelled by `none`). -/
def iselTime (frames : List NCArray) (t : Int) : Option NCArray :=
  let i : Int := if t < 0 then t + frames.length else t
  if 0 ≤ i then frames.get? i.toNat else none

/-- Lines 136–143 of `get_species_data`: if the variable has a `time`
dimension, select the requested time step (`-1` taken as the last one,
via the explicit `if time_step == -1` branch of the source); otherwise
return the variable's array unchanged.  `none` models the `IndexError`
raised by `isel` on an out-of-range index.  (`args.time_step` is always
an integer — argparse gives it the default `-1` — so the source's
`time_step is not None` guard is always true.) -/
def selectTimeStep (v : Variable) (time_step : Int) : Option NCArray :=
  match v with
  | .timeless a => some a
  | .timed frames =>
      if time_step = -1 then iselTime frames (-1)
      else iselTime frames time_step

/-- A dataset: an ordered association of variable names to variables
(variable names are unique, as dict keys are). -/
def Dataset : Type := List (String × Variable)

/-- Does the character list `hay` start with `needle`? -/
def beginsWith : List Char → List Char → Bool
  | [], _ => true
  | _ :: _, [] => false
  | a :: as, b :: bs => a == b && beginsWith as bs

/-- Does `hay` contain `needle` as a contiguous substring? -/
def containsSub (needle : List Char) : List Char → Bool
  | [] => beginsWith needle []
  | c :: rest => beginsWith needle (c :: rest) || containsSub needle rest

/-- Line 120: `is_restart = "SPC_" in str(list(ds.variables))`.  The
printed list separates names with `', '`, which cannot complete the
substring `SPC_`, so the test holds exactly when some variable name
contains `SPC_`. -/
def isRestartDS (ds : Dataset) : Bool :=
  ds.any fun p => containsSub "SPC_".data p.1.data

/-- Python's `s.split('_')` on a character list (single-character
separator): `"a_b" ↦ ["a","b"]`, `"a" ↦ ["a"]`, `"" ↦ [""]`. -/
def splitUnd : List Char → List (List Char)
  | [] => [[]]
  | c :: rest =>
      let r := splitUnd rest
      if c = '_' then [] :: r
      else
        match r with
        | [] => [[c]]
        | h :: t => (c :: h) :: t

/-- Lines 124–129: resolve the requested species key to the raw variable
name.  For a restart dataset, `var_name = f"SPC_{species_name.split('_')[1]}"`;
the list access `[1]` raises `IndexError` when the key has no underscore,
modelled by `none`.  For an output dataset the key itself is the name. -/
def resolveVarName (is_restart : Bool) (species_name : String) : Option String :=
  if is_restart then
    match (splitUnd species_name.data).get? 1 with
    | none => none
    | some cs => some ("SPC_" ++ String.mk cs)
  else some species_name

/-- Dict lookup of a variable by name (`var_name in ds` / `ds[var_name]`). -/
def lookupVar (ds : Dataset) (v : String) : Option Variable :=
  (ds.find? fun p => p.1 == v).map Prod.snd

/-- Lines 119–149 of `get_species_data` for one dataset and one species:
`Except.error ()` models an uncaught exception (`IndexError` from the
split or from `isel`); `Except.ok none` models "variable not present,
skip"; `Except.ok (some a)` is the extracted slice. -/
def extractFromDataset (ds : Dataset) (species_name : String) (time_step : Int) :
    Except Unit (Option NCArray) :=
  match resolveVarName (isRestartDS ds) species_name with
  | none => .error ()
  | some var_name =>
      match lookupVar ds var_name with
      | none => .ok none
      | some data =>
          match selectTimeStep data time_step with
          | none => .error ()
          | some a => .ok (some a)

/-- The entries `species_data[species_name]` contributed by each dataset,
in dataset order: pairs `(dataset_name, slice)` for the datasets where the
resolved variable is present.  Errors propagate (an exception aborts
`get_species_data`). -/
def entriesFor (datasets : List (String × Dataset)) (species_name : String)
    (time_step : Int) : Except Unit (List (String × NCArray)) :=
  match datasets with
  | [] => .ok []
  | (n, ds) :: rest =>
      match extractFromDataset ds species_name time_step with
      | .error e => .error e
      | .ok none => entriesFor rest species_name time_step
      | .ok (some a) => (entriesFor rest species_name time_step).map fun l => (n, a) :: l

/-- `get_species_data`: the map species → (dataset name → slice), as an
association list in requested-species order (species with no entries are
kept with `[]`, which downstream code treats exactly as the source treats
a species key absent from the dict). -/
def getSpeciesData (datasets : List (String × Dataset)) (species : List String)
    (time_step : Int) : Except Unit (List (String × List (String × NCArray))) :=
  match species with
  | [] => .ok []
  | s :: rest =>
      match entriesFor datasets s time_step with
      | .error e => .error e
      | .ok l =>
          (getSpeciesData datasets rest time_step).map fun r => (s, l) :: r

/-- Association-list lookup by key. -/
def lookupList {α : Type} (l : List (String × α)) (k : String) : Option α :=
  (l.find? fun p => p.1 == k).map Prod.snd

/-- Line 168: the (ref, test) array pairs for the dataset names present on
both sides (`set(ref.keys()) & set(test.keys())`), in the reference side's
order. -/
def pairEntries (refE testE : List (String × NCArray)) :
    List (String × NCArray × NCArray) :=
  refE.filterMap fun p => (lookupList testE p.1).map fun t => (p.1, p.2, t)

/-- Lines 168–232: run `compareOne` over the paired entries, keeping the
records of the pairs that survive the precondition checks. -/
def compareEntries (th : Thresholds) (ps : List (String × NCArray × NCArray)) :
    List (String × Stats) :=
  ps.filterMap fun p => (compareOne th p.2.1 p.2.2).map fun s => (p.1, s)

/-- `compare_species` flattened to its list of Comparison Records
`(species, dataset name, stats)`: species present on only one side are
skipped with a warning (empty entry list ↔ key absent from the dict). -/
def compareSpecies (refData testData : List (String × List (String × NCArray)))
    (species : List String) (th : Thresholds) : List (String × String × Stats) :=
  species.flatMap fun s =>
    match lookupList refData s, lookupList testData s with
    | some refE, some testE =>
        if refE = [] ∨ testE = [] then []
        else (compareEntries th (pairEntries refE testE)).map fun p => (s, p.1, p.2)
    | _, _ => []

/-- Lines 576–583 of `main`: `thresholds = VALIDATION_THRESHOLDS` unless
`args.threshold` is truthy (present and nonzero), in which case the triple
is `{mean: t, rmse: t*10, max_abs_diff: t*100}`. -/
def effectiveThresholds (override : Option ℚ) : Thresholds :=
  match override with
  | none => VALIDATION_THRESHOLDS
  | some t =>
      if t ≠ 0 then { mean := t, rmse := t * 10, max_abs_diff := t * 100 }
      else VALIDATION_THRESHOLDS

/-- `generate_comparison_plots` (lines 244–258), modelled up to its
control-flow effect on the run: for each requested species present on both
sides it revisits every dataset-name pair in the intersection, skips a
shape mismatch, and then performs the *unguarded* dict lookup
`stats = comparison_results[species_name][dataset_name]` (line 258).  A
pair that passed these two re-checks but was skipped by `compare_species`
(zero valid non-NaN overlap, line 190) has no record, so the lookup raises
an uncaught `KeyError`, modelled by `Except.error ()`.  The rendering
calls themselves (histograms, scatter, file output) are plotting-library
I/O, out of scope as an external collaborator. -/
def generateComparisonPlots (refData testData : List (String × List (String × NCArray)))
    (species : List String) (records : List (String × String × Stats)) :
    Except Unit Unit :=
  if species.all (fun s =>
      match lookupList refData s, lookupList testData s with
      | some refE, some testE =>
          if refE = [] ∨ testE = [] then true
          else (pairEntries refE testE).all fun p =>
            if p.2.1.shape ≠ p.2.2.shape then true
            else (records.find? fun rec => rec.1 == s && rec.2.1 == p.1).isSome
      | _, _ => true)
  then .ok () else .error ()

/-- `main` (lines 546–616), from the loaded datasets to the process exit
code.  `refDatasets`/`testDatasets` are `none` when `load_netcdf_outputs`
returned `None`; a `some []` (no dataset loaded) is equally falsy.
`generate_comparison_plots` runs (line 591) after the comparison and
*before* the exit logic of lines 598–613, so its `KeyError` path kills the
run.  The result is `none` when the run dies on an uncaught exception,
`some c` when it exits with code `c`. -/
def mainExitCode (refDatasets testDatasets : Option (List (String × Dataset)))
    (species : List String) (time_step : Int) (override : Option ℚ) : Option Nat :=
  match refDatasets, testDatasets with
  | some refDs, some testDs =>
      if refDs.isEmpty || testDs.isEmpty then some 1
      else
        match getSpeciesData refDs species time_step,
              getSpeciesData testDs species time_step with
        | .ok refData, .ok testData =>
            let records := compareSpecies refData testData species
              (effectiveThresholds override)
            match generateComparisonPlots refData testData species records with
            | .error _ => none
            | .ok _ =>
                let total_count := records.length
                let pass_count :=
                  (records.filter fun r => r.2.2.passes_validation).length
                some (if pass_count < total_count then 1 else 0)
        | _, _ => none
  | _, _ => some 1

/-! ### Helper lemmas -/

/-- Unfolding of a successful `compareOne`: the shapes agree, the valid
pair set is nonempty, and the record is `computeStats` of the valid pairs. -/
theorem compareOne_eq_some {th : Thresholds} {r t : NCArray} {s : Stats}
    (h : compareOne th r t = some s) :
    r.shape = t.shape ∧ validPairs r.flat t.flat ≠ [] ∧
      s = computeStats th (validPairs r.flat t.flat) := by
  unfold compareOne at h
  by_cases hsh : r.shape ≠ t.shape
  · rw [if_pos hsh] at h
    exact absurd h (by simp)
  · rw [if_neg hsh] at h
    by_cases hne : validPairs r.flat t.flat = []
    · simp [hne] at h
    · simp [hne] at h
      exact ⟨not_not.mp hsh, hne, h.symm⟩

/-- The verdict field of `computeStats` is `passesValidation` applied to
the other fields. -/
theorem computeStats_passes (th : Thresholds) (pairs : List (ℚ × ℚ)) :
    (computeStats th pairs).passes_validation =
      passesValidation th (computeStats th pairs).mean_ref
        (computeStats th pairs).mean_test (computeStats th pairs).rmseSq
        (computeStats th pairs).max_abs_diff := rfl

/-- `rmseSq` is a mean of squares, hence nonnegative. -/
theorem computeStats_rmseSq_nonneg (th : Thresholds) (pairs : List (ℚ × ℚ)) :
    0 ≤ (computeStats th pairs).rmseSq := by
  have hsum : 0 ≤ ((pairs.map fun p => |p.2 - p.1|).map fun d => d ^ 2).sum := by
    refine List.sum_nonneg ?_
    intro x hx
    obtain ⟨d, -, rfl⟩ := List.mem_map.mp hx
    exact sq_nonneg d
  exact div_nonneg hsum (by positivity)

/-- Bridge between the source's real comparison `rmse / |mean_ref| < t`
(with `rmse = sqrt rmseSq`) and the exact rational predicate `sqrtQLt`
used in the embedded verdict. -/
theorem sqrt_div_abs_lt_iff (x t m : ℚ) (hm : m ≠ 0) :
    Real.sqrt (x : ℝ) / |(m : ℝ)| < (t : ℝ) ↔ sqrtQLt x (t * |m|) := by
  have hm' : (0 : ℝ) < |(m : ℝ)| := abs_pos.mpr (by exact_mod_cast hm)
  rw [div_lt_iff₀ hm']
  have hcast : ((t * |m| : ℚ) : ℝ) = (t : ℝ) * |(m : ℝ)| := by push_cast; ring
  constructor
  · intro hlt
    have ht : (0 : ℝ) < (t : ℝ) * |(m : ℝ)| :=
      lt_of_le_of_lt (Real.sqrt_nonneg _) hlt
    have hx2 : (x : ℝ) < ((t : ℝ) * |(m : ℝ)|) ^ 2 := (Real.sqrt_lt' ht).mp hlt
    constructor
    · have : (0 : ℝ) < ((t * |m| : ℚ) : ℝ) := by rw [hcast]; exact ht
      exact_mod_cast this
    · have : (x : ℝ) < ((t * |m| : ℚ) : ℝ) ^ 2 := by rw [hcast]; exact hx2
      exact_mod_cast this
  · rintro ⟨h1, h2⟩
    have ht : (0 : ℝ) < (t : ℝ) * |(m : ℝ)| := by
      rw [← hcast]; exact_mod_cast h1
    refine (Real.sqrt_lt' ht).mpr ?_
    have : (x : ℝ) < ((t * |m| : ℚ) : ℝ) ^ 2 := by exact_mod_cast h2
    rw [hcast] at this
    exact this

/-- `pass_count < total_count` over a record list is exactly "not all
records pass". -/
theorem filter_length_lt_iff {α : Type} (l : List α) (p : α → Bool) :
    (l.filter p).length < l.length ↔ ¬ (l.all p = true) := by
  induction l with
  | nil => simp
  | cons a l ih =>
    by_cases hpa : p a = true
    · simpa [List.filter_cons, hpa, Nat.succ_lt_succ_iff] using ih
    · simp only [Bool.not_eq_true] at hpa
      have hle := List.length_filter_le p l
      simp [List.filter_cons, hpa, Nat.lt_succ_of_le hle]

/-! ### Claim C1 -/

/-- C1 counterexample input: reference values `[1, 1]`. -/
def c1Ref : NCArray := ⟨[2], [some 1, some 1]⟩

/-- C1 counterexample input: test values `[1 + 2e-5, 1 - 2e-5]` (equal-mean
perturbation with mixed signs). -/
def c1Test : NCArray := ⟨[2], [some (1 + 2 / 10 ^ 5), some (1 - 2 / 10 ^ 5)]⟩

/-- The record `compare_species` produces for `c1Ref` vs `c1Test`. -/
def c1Stats : Stats :=
  computeStats VALIDATION_THRESHOLDS [(1, 1 + 2 / 10 ^ 5), (1, 1 - 2 / 10 ^ 5)]

/-- C1, counterexample: with reference `[1, 1]` and test
`[1 + 2e-5, 1 - 2e-5]` the code's verdict is pass, although
`mean_abs_diff / |mean_ref| = 2e-5` is not below the mean threshold `1e-5`:
the first conjunct of the code's verdict normalizes `|mean_ref - mean_test|`
(the absolute difference of the two means), not `mean_abs_diff`. -/
theorem mean_abs_diff_claim_false :
    compareOne VALIDATION_THRESHOLDS c1Ref c1Test = some c1Stats ∧
    c1Stats.passes_validation = true ∧
    ¬ (c1Stats.mean_abs_diff / |c1Stats.mean_ref| < VALIDATION_THRESHOLDS.mean) := by
  refine ⟨rfl, ?_, ?_⟩
  · norm_num [c1Stats, computeStats, qmean, listMax, passesValidation, sqrtQLt,
      VALIDATION_THRESHOLDS, decide_eq_true_eq, Bool.and_eq_true, abs_of_nonneg,
      abs_of_nonpos]
  · norm_num [c1Stats, computeStats, qmean, VALIDATION_THRESHOLDS, abs_of_nonneg,
      abs_of_nonpos]

/-- C1 (amended): for every comparison record with `mean_ref ≠ 0`, the
verdict is pass iff `|mean_ref - mean_test| / |mean_ref| < mean-threshold`
AND `rmse / |mean_ref| < rmse-threshold` AND
`max_abs_diff / |mean_ref| < max-threshold` (conjunction of the three
normalized checks; the first normalizes the absolute difference of the two
means, not `mean_abs_diff`). -/
theorem verdict_iff_normalized_conjunction (th : Thresholds) (ref test : NCArray)
    (s : Stats) (h : compareOne th ref test = some s) (hm : s.mean_ref ≠ 0) :
    s.passes_validation = true ↔
      (|s.mean_ref - s.mean_test| / |s.mean_ref| < th.mean ∧
       Real.sqrt (s.rmseSq : ℝ) / |(s.mean_ref : ℝ)| < (th.rmse : ℝ) ∧
       s.max_abs_diff / |s.mean_ref| < th.max_abs_diff) := by
  obtain ⟨-, -, hs⟩ := compareOne_eq_some h
  subst hs
  rw [computeStats_passes]
  unfold passesValidation
  rw [if_pos hm]
  rw [sqrt_div_abs_lt_iff _ th.rmse _ hm]
  simp only [Bool.and_eq_true, decide_eq_true_eq, sqrtQLt, and_assoc]

/-- C1 witness input. -/
def c1wRef : NCArray := ⟨[2], [some 1, some 1]⟩

/-- C1 witness input. -/
def c1wTest : NCArray := ⟨[2], [some 1, some 1]⟩

/-- The record produced for the C1 witness input. -/
def c1wStats : Stats := computeStats VALIDATION_THRESHOLDS [(1, 1), (1, 1)]

/-- C1 witness: the amended verdict characterization instantiated at a
concrete comparison. -/
theorem verdict_iff_normalized_conjunction_witness :
    compareOne VALIDATION_THRESHOLDS c1wRef c1wTest = some c1wStats ∧
    c1wStats.mean_ref ≠ 0 ∧
    (c1wStats.passes_validation = true ↔
      (|c1wStats.mean_ref - c1wStats.mean_test| / |c1wStats.mean_ref| <
          VALIDATION_THRESHOLDS.mean ∧
       Real.sqrt (c1wStats.rmseSq : ℝ) / |(c1wStats.mean_ref : ℝ)| <
          (VALIDATION_THRESHOLDS.rmse : ℝ) ∧
       c1wStats.max_abs_diff / |c1wStats.mean_ref| <
          VALIDATION_THRESHOLDS.max_abs_diff)) := by
  have hm : c1wStats.mean_ref ≠ 0 := by
    norm_num [c1wStats, computeStats, qmean]
  exact ⟨rfl, hm,
    verdict_iff_normalized_conjunction VALIDATION_THRESHOLDS c1wRef c1wTest c1wStats rfl hm⟩

/-! ### Claim C2 -/

/-- C2: for every comparison record whose reference slice has mean exactly
zero, the verdict is pass iff `|mean_test| < 1e-10` (absolute check, no
division). -/
theorem zero_mean_ref_verdict (th : Thresholds) (ref test : NCArray) (s : Stats)
    (h : compareOne th ref test = some s) (hm : s.mean_ref = 0) :
    s.passes_validation = true ↔ |s.mean_test| < 1 / 10 ^ 10 := by
  obtain ⟨-, -, hs⟩ := compareOne_eq_some h
  subst hs
  rw [computeStats_passes]
  unfold passesValidation
  rw [if_neg (not_not.mpr hm)]
  simp only [decide_eq_true_eq]

/-- C2 fixture: reference `[1, -1]`, of mean exactly zero. -/
def c2Ref : NCArray := ⟨[2], [some 1, some (-1)]⟩

/-- C2 fixture: test `[2e-11, 0]`, of mean `1e-11`. -/
def c2TestPass : NCArray := ⟨[2], [some (2 / 10 ^ 11), some 0]⟩

/-- C2 fixture: test `[2e-9, 0]`, of mean `1e-9`. -/
def c2TestFail : NCArray := ⟨[2], [some (2 / 10 ^ 9), some 0]⟩

/-- The record produced for `c2Ref` vs `c2TestPass`. -/
def c2Stats : Stats :=
  computeStats VALIDATION_THRESHOLDS [(1, 2 / 10 ^ 11), (-1, 0)]

/-- C2 witness: the zero-mean characterization at a concrete comparison,
plus the claim's two instantiations — with `mean_ref = 0`, a test mean of
`1e-11` passes and a test mean of `1e-9` fails. -/
theorem zero_mean_ref_verdict_witness :
    compareOne VALIDATION_THRESHOLDS c2Ref c2TestPass = some c2Stats ∧
    c2Stats.mean_ref = 0 ∧
    (c2Stats.passes_validation = true ↔ |c2Stats.mean_test| < 1 / 10 ^ 10) ∧
    (compareOne VALIDATION_THRESHOLDS c2Ref c2TestPass).map Stats.passes_validation
      = some true ∧
    (compareOne VALIDATION_THRESHOLDS c2Ref c2TestFail).map Stats.passes_validation
      = some false := by
  have hm : c2Stats.mean_ref = 0 := by norm_num [c2Stats, computeStats, qmean]
  have hiff :=
    zero_mean_ref_verdict VALIDATION_THRESHOLDS c2Ref c2TestPass c2Stats rfl hm
  refine ⟨rfl, hm, hiff, ?_, ?_⟩
  · rw [show compareOne VALIDATION_THRESHOLDS c2Ref c2TestPass = some c2Stats from rfl]
    have hp : c2Stats.passes_validation = true := by
      refine hiff.mpr ?_
      norm_num [c2Stats, computeStats, qmean, abs_of_nonneg]
    simp [hp]
  · rw [show compareOne VALIDATION_THRESHOLDS c2Ref c2TestFail
        = some (computeStats VALIDATION_THRESHOLDS [(1, 2 / 10 ^ 9), (-1, 0)]) from rfl]
    have hp : (computeStats VALIDATION_THRESHOLDS
        [(1, 2 / 10 ^ 9), (-1, 0)]).passes_validation = false := by
      norm_num [computeStats, qmean, passesValidation, decide_eq_true_eq,
        abs_of_nonneg]
    simp [hp]

/-! ### Claim C3 -/

/-- C3: the per-element relative difference is `0` when `|ref| ≤ 1e-10` and
`abs_diff / |ref|` otherwise, and `mean_rel_diff`/`max_rel_diff` are the
mean/max of exactly those guarded values — no position with `|ref| ≤ 1e-10`
ever contributes a division result. -/
theorem rel_diff_near_zero_guard (th : Thresholds) (pairs : List (ℚ × ℚ)) :
    (∀ r t : ℚ, relDiffElem r t = if |r| ≤ 1 / 10 ^ 10 then 0 else |t - r| / |r|) ∧
    (computeStats th pairs).mean_rel_diff =
      qmean (pairs.map fun p => if |p.1| ≤ 1 / 10 ^ 10 then 0 else |p.2 - p.1| / |p.1|) ∧
    (computeStats th pairs).max_rel_diff =
      listMax (pairs.map fun p => if |p.1| ≤ 1 / 10 ^ 10 then 0 else |p.2 - p.1| / |p.1|) := by
  have he : ∀ r t : ℚ,
      relDiffElem r t = if |r| ≤ 1 / 10 ^ 10 then 0 else |t - r| / |r| := by
    intro r t
    unfold relDiffElem
    rcases le_or_lt |r| (1 / 10 ^ 10) with hr | hr
    · rw [if_neg (not_lt.mpr hr), if_pos hr]
    · rw [if_pos hr, if_neg (not_le.mpr hr)]
  refine ⟨he, ?_, ?_⟩
  · show qmean (pairs.map fun p => relDiffElem p.1 p.2) = _
    simp only [he]
  · show listMax (pairs.map fun p => relDiffElem p.1 p.2) = _
    simp only [he]

/-! ### Claim C4 -/

/-- C4, counterexample: the caller-supplied override `t = 0` does not yield
the scaled triple `{0, 0, 0}` — it is falsy in Python, so the defaults are
used instead. -/
theorem override_zero_not_scaled :
    effectiveThresholds (some 0) = VALIDATION_THRESHOLDS ∧
    effectiveThresholds (some 0) ≠
      { mean := 0, rmse := 0 * 10, max_abs_diff := 0 * 100 } := by
  constructor
  · rfl
  · intro hcontra
    have : VALIDATION_THRESHOLDS.mean = 0 := by
      rw [show VALIDATION_THRESHOLDS = effectiveThresholds (some 0) from rfl, hcontra]
    rw [VALIDATION_THRESHOLDS] at this
    norm_num at this

/-- C4 (amended): for every *nonzero* caller-supplied override threshold
`t`, the effective triple is exactly `{mean: t, rmse: 10t, max_abs_diff:
100t}`; the three thresholds cannot be overridden independently.  (A zero
override is falsy in Python and leaves the defaults in place, see C10.) -/
theorem override_thresholds_scaling (t : ℚ) (h : t ≠ 0) :
    effectiveThresholds (some t) =
      { mean := t, rmse := t * 10, max_abs_diff := t * 100 } := by
  simp [effectiveThresholds, h]

/-- C4 witness: the override `t = 1e-4` yields exactly
`{mean: 1e-4, rmse: 1e-3, max_abs_diff: 1e-2}`. -/
theorem override_thresholds_scaling_witness :
    (1 / 10 ^ 4 : ℚ) ≠ 0 ∧
    effectiveThresholds (some (1 / 10 ^ 4)) =
      { mean := 1 / 10 ^ 4, rmse := 1 / 10 ^ 3, max_abs_diff := 1 / 10 ^ 2 } := by
  refine ⟨by norm_num, ?_⟩
  rw [override_thresholds_scaling (1 / 10 ^ 4) (by norm_num)]
  norm_num [Thresholds.mk.injEq]

/-! ### Claim C5 -/

/-- C5: for every pair of arrays with differing shapes, the comparator
produces no record (`none`), and removing such a pair from the pair list
leaves the produced records unchanged — the mismatched pair is skipped and
the remaining pairs are processed as if it were absent. -/
theorem shape_mismatch_excluded (th : Thresholds) (r t : NCArray)
    (h : r.shape ≠ t.shape) :
    compareOne th r t = none ∧
    ∀ (n : String) (l₁ l₂ : List (String × NCArray × NCArray)),
      compareEntries th (l₁ ++ (n, r, t) :: l₂) = compareEntries th (l₁ ++ l₂) := by
  have h0 : compareOne th r t = none := by
    unfold compareOne
    rw [if_pos h]
  refine ⟨h0, fun n l₁ l₂ => ?_⟩
  simp [compareEntries, List.filterMap_append, List.filterMap_cons, h0]

/-- C5 fixture: a `2`-shaped array. -/
def c5R : NCArray := ⟨[2], [some 1, some 2]⟩

/-- C5 fixture: a `3`-shaped array. -/
def c5T : NCArray := ⟨[3], [some 1, some 2, some 3]⟩

/-- C5 fixture: a well-shaped companion pair. -/
def c5Ok : NCArray := ⟨[1], [some 4]⟩

/-- C5 witness: the shape-mismatch exclusion applied to concrete arrays of
shapes `(2,)` and `(3,)` inside a two-pair list. -/
theorem shape_mismatch_excluded_witness :
    c5R.shape ≠ c5T.shape ∧
    compareOne VALIDATION_THRESHOLDS c5R c5T = none ∧
    compareEntries VALIDATION_THRESHOLDS [("a", c5Ok, c5Ok), ("b", c5R, c5T)] =
      compareEntries VALIDATION_THRESHOLDS [("a", c5Ok, c5Ok)] := by
  have hsh : c5R.shape ≠ c5T.shape := by simp [c5R, c5T]
  have h := shape_mismatch_excluded VALIDATION_THRESHOLDS c5R c5T hsh
  refine ⟨hsh, h.1, ?_⟩
  have h2 := h.2 "b" [("a", c5Ok, c5Ok)] []
  simpa using h2

/-! ### Claim C6 -/

/-- C6: the comparator's output depends only on the jointly-valid
(non-NaN) positions — any two shape-consistent inputs with the same valid
pair list produce the same record — and when zero valid positions remain
the pair is excluded (no record). -/
theorem stats_over_valid_mask (th : Thresholds) (r t : NCArray)
    (hsh : r.shape = t.shape) :
    (validPairs r.flat t.flat = [] → compareOne th r t = none) ∧
    ∀ r' t' : NCArray, r'.shape = t'.shape →
      validPairs r'.flat t'.flat = validPairs r.flat t.flat →
      compareOne th r' t' = compareOne th r t := by
  constructor
  · intro hv
    unfold compareOne
    rw [if_neg (not_not.mpr hsh)]
    simp [hv]
  · intro r' t' hsh' hv
    unfold compareOne
    rw [if_neg (not_not.mpr hsh), if_neg (not_not.mpr hsh'), hv]

/-- C6 fixture: reference with a NaN in the second position. -/
def c6R : NCArray := ⟨[2], [none, some 1]⟩

/-- C6 fixture: test with a NaN in the first position — jointly, no valid
position remains. -/
def c6T : NCArray := ⟨[2], [some 1, none]⟩

/-- C6 fixture: a different pair with the same (empty) valid pair list. -/
def c6R' : NCArray := ⟨[5], [none, none]⟩

/-- C6 fixture companion. -/
def c6T' : NCArray := ⟨[5], [none, some 3]⟩

/-- C6 witness: concrete arrays where every position has a NaN on one side:
the pair is excluded, and any other same-valid-set pair gets the same
result. -/
theorem stats_over_valid_mask_witness :
    c6R.shape = c6T.shape ∧
    compareOne VALIDATION_THRESHOLDS c6R c6T = none ∧
    compareOne VALIDATION_THRESHOLDS c6R' c6T' = compareOne VALIDATION_THRESHOLDS c6R c6T := by
  have h := stats_over_valid_mask VALIDATION_THRESHOLDS c6R c6T rfl
  exact ⟨rfl, h.1 rfl, h.2 c6R' c6T' rfl rfl⟩

/-! ### Claim C7 -/

/-- C7 counterexample fixture: a restart-convention dataset (its variable
name contains `SPC_`). -/
def c7RestartDS : Dataset := [("SPC_O3", Variable.timeless ⟨[1], [some 1]⟩)]

/-- C7, counterexample: resolution can raise.  On a restart-convention
dataset, requesting the species key `"O3"` (no underscore) makes
`species_name.split('_')[1]` raise `IndexError` (modelled by `none` /
`Except.error`), so resolution is not raise-free for every requested
species key. -/
theorem species_resolution_raises :
    isRestartDS c7RestartDS = true ∧
    resolveVarName (isRestartDS c7RestartDS) "O3" = none ∧
    extractFromDataset c7RestartDS "O3" (-1) = .error () :=
  ⟨rfl, rfl, rfl⟩

/-- C7 (amended): for every dataset and requested species key of the
canonical form `SpeciesConc_<NAME>`, the resolver selects `SPC_<NAME>`
when some variable name contains the substring `SPC_` and
`SpeciesConc_<NAME>` otherwise, without raising; when the resolved name is
absent from the dataset the extraction step yields no entry
(`Except.ok none`) and the dataset contributes nothing to the species'
entry list, so the (species, dataset) pair appears in no record.
(Resolution *can* raise for a key with no underscore on a
restart-convention dataset, see the counterexample.) -/
theorem species_resolution_convention (ds : Dataset) (name species : String)
    (ts : Int) (h1 : species = "SpeciesConc_" ++ name)
    (h2 : (splitUnd species.data).get? 1 = some name.data) :
    resolveVarName (isRestartDS ds) species =
      some (if isRestartDS ds then "SPC_" ++ name else "SpeciesConc_" ++ name) ∧
    (∀ v, resolveVarName (isRestartDS ds) species = some v →
      lookupVar ds v = none → extractFromDataset ds species ts = .ok none) ∧
    (∀ v, resolveVarName (isRestartDS ds) species = some v →
      lookupVar ds v = none →
      ∀ (dsName : String) (rest : List (String × Dataset)),
        entriesFor ((dsName, ds) :: rest) species ts = entriesFor rest species ts) := by
  have hmk : String.mk name.data = name := rfl
  have h2' : (splitUnd species.data)[1]? = some name.data := by
    rw [← List.get?_eq_getElem?]
    exact h2
  have hres : resolveVarName (isRestartDS ds) species =
      some (if isRestartDS ds then "SPC_" ++ name else "SpeciesConc_" ++ name) := by
    unfold resolveVarName
    cases hR : isRestartDS ds
    · simp [hR, h1]
    · simp [hR, h2', hmk]
  have hex : ∀ v, resolveVarName (isRestartDS ds) species = some v →
      lookupVar ds v = none → extractFromDataset ds species ts = .ok none := by
    intro v hv hlook
    unfold extractFromDataset
    simp only [hv, hlook]
  refine ⟨hres, hex, ?_⟩
  intro v hv hlook dsName rest
  have h0 := hex v hv hlook
  simp only [entriesFor, h0]

/-- C7 witness fixture: a restart-convention dataset that has `SPC_CO` but
no `SPC_O3`. -/
def c7wDS : Dataset := [("SPC_CO", Variable.timeless ⟨[1], [some 2]⟩)]

/-- C7 witness: requesting `SpeciesConc_O3` against a restart dataset
containing only `SPC_CO` resolves to `SPC_O3` without raising, the absent
variable yields no entry, and the dataset drops out of the species' entry
list entirely. -/
theorem species_resolution_convention_witness :
    ("SpeciesConc_O3" : String) = "SpeciesConc_" ++ "O3" ∧
    resolveVarName (isRestartDS c7wDS) "SpeciesConc_O3" =
      some (if isRestartDS c7wDS then "SPC_" ++ "O3" else "SpeciesConc_" ++ "O3") ∧
    extractFromDataset c7wDS "SpeciesConc_O3" (-1) = .ok none ∧
    entriesFor [("d", c7wDS)] "SpeciesConc_O3" (-1) =
      entriesFor [] "SpeciesConc_O3" (-1) := by
  have h := species_resolution_convention c7wDS "O3" "SpeciesConc_O3" (-1) rfl rfl
  exact ⟨rfl, h.1, h.2.1 "SPC_O3" rfl rfl, h.2.2 "SPC_O3" rfl rfl "d" []⟩

/-! ### Claim C8 -/

/-- C8 counterexample fixtures: three distinguishable time frames. -/
def c8f0 : NCArray := ⟨[1], [some 0]⟩

/-- C8 fixture. -/
def c8f1 : NCArray := ⟨[1], [some 1]⟩

/-- C8 fixture. -/
def c8f2 : NCArray := ⟨[1], [some 2]⟩

/-- C8, counterexample: the time index `-2` is neither `-1` nor a valid
zero-based absolute index, so per the claim it should produce a clear
out-of-range failure; instead `isel` wraps negative indices Python-style
and selects the second-to-last frame. -/
theorem negative_time_index_wraps :
    selectTimeStep (Variable.timed [c8f0, c8f1, c8f2]) (-2) = some c8f1 ∧
    selectTimeStep (Variable.timed [c8f0, c8f1, c8f2]) (-2) ≠ none :=
  ⟨rfl, by simp [show selectTimeStep (Variable.timed [c8f0, c8f1, c8f2]) (-2)
      = some c8f1 from rfl]⟩

/-- C8 (amended): a variable with no time dimension is returned unchanged;
index `-1` (the unset default) selects the last available time step; a
nonnegative index selects that zero-based absolute step, with `none`
(a raised `IndexError`) when it is out of range; a negative index other
than `-1` follows Python wrap-around (`length + t`), raising only when the
wrapped index is still negative. -/
theorem iselTime_eq (frames : List NCArray) (t : Int) :
    iselTime frames t =
      if 0 ≤ (if t < 0 then t + (frames.length : Int) else t)
      then frames.get? (if t < 0 then t + (frames.length : Int) else t).toNat
      else none := rfl

/-- Reduction of `selectTimeStep` on a timed variable. -/
theorem selectTimeStep_timed (frames : List NCArray) (t : Int) :
    selectTimeStep (Variable.timed frames) t =
      if t = -1 then iselTime frames (-1) else iselTime frames t := rfl

/-- C8 (amended): a variable with no time dimension is returned unchanged;
index `-1` (the unset default) selects the last available time step; a
nonnegative index selects that zero-based absolute step, with `none`
(a raised `IndexError`) when it is out of range; a negative index other
than `-1` follows Python wrap-around (`length + t`), raising only when the
wrapped index is still negative. -/
theorem time_slice_selection (a : NCArray) (frames : List NCArray) (ts t : Int) :
    selectTimeStep (Variable.timeless a) ts = some a ∧
    selectTimeStep (Variable.timed frames) (-1) = frames.getLast? ∧
    (0 ≤ t → selectTimeStep (Variable.timed frames) t = frames.get? t.toNat) ∧
    (t < 0 → selectTimeStep (Variable.timed frames) t =
        if 0 ≤ t + (frames.length : Int) then frames.get? (t + frames.length).toNat
        else none) := by
  refine ⟨rfl, ?_, ?_, ?_⟩
  · rw [selectTimeStep_timed, if_pos rfl, iselTime_eq,
      if_pos (show (-1 : Int) < 0 by norm_num)]
    cases frames with
    | nil => simp
    | cons b l =>
        have hlen : (0 : Int) ≤ -1 + ((b :: l).length : Int) := by
          simp only [List.length_cons]
          omega
        rw [if_pos hlen, List.getLast?_eq_getElem?, List.get?_eq_getElem?]
        congr 1
        simp only [List.length_cons]
        omega
  · intro ht
    have hne : t ≠ -1 := by omega
    rw [selectTimeStep_timed, if_neg hne, iselTime_eq, if_neg (not_lt.mpr ht),
      if_pos ht]
  · intro ht
    have hsel : selectTimeStep (Variable.timed frames) t = iselTime frames t := by
      rw [selectTimeStep_timed]
      by_cases he : t = -1
      · rw [if_pos he, he]
      · rw [if_neg he]
    rw [hsel, iselTime_eq, if_pos ht]

/-- C8 witness fixture: a timeless array. -/
def c8A : NCArray := ⟨[2, 2], [some 7, some 8, some 9, some 10]⟩

/-- C8 witness: the slice-extraction contract at concrete inputs — a
timeless variable is unchanged, `-1` picks the last of three frames, index
`1` picks the second frame, and index `5` is an out-of-range failure. -/
theorem time_slice_selection_witness :
    selectTimeStep (Variable.timeless c8A) 3 = some c8A ∧
    selectTimeStep (Variable.timed [c8f0, c8f1, c8f2]) (-1) = some c8f2 ∧
    selectTimeStep (Variable.timed [c8f0, c8f1, c8f2]) 1 = some c8f1 ∧
    selectTimeStep (Variable.timed [c8f0, c8f1, c8f2]) 5 = none := by
  refine ⟨(time_slice_selection c8A [c8f0, c8f1, c8f2] 3 1).1, ?_, ?_, ?_⟩
  · have h := (time_slice_selection c8A [c8f0, c8f1, c8f2] 3 1).2.1
    simpa using h
  · have h := (time_slice_selection c8A [c8f0, c8f1, c8f2] 3 1).2.2.1 (by omega)
    simpa using h
  · have h := (time_slice_selection c8A [c8f0, c8f1, c8f2] 3 5).2.2.1 (by omega)
    simpa using h

/-! ### Claim C9 -/

/-- C9 failing input, reference side: one dataset `d` whose
`SpeciesConc_O3` is `[NaN, 1.0]`. -/
def c9bugRef : List (String × Dataset) :=
  [("d", [("SpeciesConc_O3", Variable.timeless ⟨[2], [none, some 1]⟩)])]

/-- C9 failing input, test side: `SpeciesConc_O3` is `[1.0, NaN]` — same
shape, but no position is valid on both sides. -/
def c9bugTest : List (String × Dataset) :=
  [("d", [("SpeciesConc_O3", Variable.timeless ⟨[2], [some 1, none]⟩)])]

/-- The species data extracted from `c9bugRef`. -/
def c9bugRefData : List (String × List (String × NCArray)) :=
  [("SpeciesConc_O3", [("d", ⟨[2], [none, some 1]⟩)])]

/-- The species data extracted from `c9bugTest`. -/
def c9bugTestData : List (String × List (String × NCArray)) :=
  [("SpeciesConc_O3", [("d", ⟨[2], [some 1, none]⟩)])]

/-- C9 contrast input: a test side with no `SpeciesConc_O3` at all, so the
pair is skipped consistently by both `compare_species` and
`generate_comparison_plots`. -/
def c9okTest : List (String × Dataset) :=
  [("d", [("SpeciesConc_CO", Variable.timeless ⟨[2], [some 1, some 1]⟩)])]

/-- C9, evaluation at the failing input: with reference `[NaN, 1.0]` and
test `[1.0, NaN]` (matching shapes, zero jointly-valid positions) the
comparator produces zero Comparison Records, and the run then dies on the
uncaught `KeyError` from the unguarded
`comparison_results[species][dataset]` lookup in
`generate_comparison_plots` (line 258) — it never reaches the exit logic,
so it does not exit `0` as the claim requires of an all-pass (here
zero-record) run.  By contrast, a zero-record run whose pairs are skipped
consistently on both passes (species absent from the test side) does exit
`0`. -/
theorem zero_valid_overlap_keyerror_crash :
    getSpeciesData [("d", [("SpeciesConc_O3", Variable.timeless ⟨[2], [none, some 1]⟩)])]
      ["SpeciesConc_O3"] (-1) = .ok c9bugRefData ∧
    compareSpecies c9bugRefData c9bugTestData ["SpeciesConc_O3"]
      VALIDATION_THRESHOLDS = [] ∧
    generateComparisonPlots c9bugRefData c9bugTestData ["SpeciesConc_O3"] []
      = .error () ∧
    mainExitCode (some c9bugRef) (some c9bugTest) ["SpeciesConc_O3"] (-1) none
      = none ∧
    mainExitCode (some c9bugRef) (some c9okTest) ["SpeciesConc_O3"] (-1) none
      = some 0 :=
  ⟨rfl, rfl, rfl, rfl, rfl⟩

/-! ### Claim C10 -/

/-- C10: a caller-supplied override threshold of `0.0` is falsy in Python
and silently ignored — the default triple
`{mean: 1e-5, rmse: 1e-4, max_abs_diff: 1e-3}` is used, not the scaled
triple `{0, 0, 0}`. -/
theorem override_zero_uses_defaults :
    effectiveThresholds (some 0) = VALIDATION_THRESHOLDS ∧
    VALIDATION_THRESHOLDS =
      { mean := 1 / 10 ^ 5, rmse := 1 / 10 ^ 4, max_abs_diff := 1 / 10 ^ 3 } ∧
    effectiveThresholds (some 0) ≠ { mean := 0, rmse := 0, max_abs_diff := 0 } := by
  refine ⟨rfl, rfl, ?_⟩
  intro h
  have h2 : VALIDATION_THRESHOLDS.mean = 0 := by
    rw [show VALIDATION_THRESHOLDS = effectiveThresholds (some 0) from rfl, h]
  rw [VALIDATION_THRESHOLDS] at h2
  norm_num at h2

end GeosChemValidate
